import Mathlib

/-!
A verification development for `apps/gemma_client.py`: the tool-call
detection and dispatch loop of a small MCP chat client.

The Python source is shallowly embedded as executable Lean definitions:

* `Json`, `json_loads` — the subset of Python `json.loads` behaviour the
  client exercises (values, whitespace, strings with escapes, numbers kept
  as their validated literal, objects with last-duplicate-wins keys);
* `findFence`, `parse_response` — the regex search for
  `TOOL_PATTERN = "```json\n(.*?)\n``"` (note: the closing marker in the
  source really is two backticks, and `.` does not match a newline, so the
  captured inner text is a single line) followed by `json.loads`;
* `Env`, `process_user_prompt` — the per-turn orchestrator
  `MCPClient.process_user_prompt`, with the external collaborators (MCP
  session and Ollama model) supplied as an explicit environment and every
  external call recorded in a trace;
* `chat_loop` — the interactive loop `MCPClient.chat_loop`, with stdin
  modelled as a list of input lines.
-/

/-- Parsed JSON values as produced by `json.loads`.  Numeric literals are
kept verbatim (as the matched literal text) rather than converted to
machine floats; `NaN`/`Infinity`/`-Infinity` are the literals accepted by the
default Python `parse_constant`. -/
inductive Json where
  | null
  | bool (b : Bool)
  | num (lit : String)
  | str (s : String)
  | arr (elems : List Json)
  | obj (members : List (String × Json))

/-- Python truthiness (`if function_call_json:`) of a parsed JSON value:
`None`, `False`, numeric zero, `""`, `[]` and `{}` are falsy.  A numeric
literal denotes zero exactly when no nonzero digit occurs before the
exponent marker (the exponent cannot make a nonzero mantissa zero; float
underflow is outside the scope of this model). -/
def Json.truthy : Json → Bool
  | .null => false
  | .bool b => b
  | .num lit => lit.data.takeWhile (fun c => c ≠ 'e' ∧ c ≠ 'E') |>.any
      (fun c => '1' ≤ c ∧ c ≤ '9')
  | .str s => s ≠ ""
  | .arr elems => !elems.isEmpty
  | .obj members => !members.isEmpty

/-- Truthiness of the value returned by `parse_response`: `None` (no regex
match) is falsy. -/
def truthyOpt : Option Json → Bool
  | none => false
  | some j => j.truthy

/-- The whitespace characters `json.loads` skips between tokens. -/
def jsonWs (c : Char) : Bool :=
  c = ' ' || c = '\t' || c = '\n' || c = '\r'

def skipWs (s : List Char) : List Char :=
  s.dropWhile jsonWs

/-- Predicate `begins pat s` holds when `pat` is a prefix of `s` (literal match, as
for the fixed fragments of the regex pattern). -/
def begins : List Char → List Char → Bool
  | [], _ => true
  | _ :: _, [] => false
  | a :: as, b :: bs => a == b && begins as bs

/-- Value of a hexadecimal digit, for `\uXXXX` escapes. -/
def hexVal (c : Char) : Option Nat :=
  if '0' ≤ c ∧ c ≤ '9' then some (c.toNat - 48)
  else if 'a' ≤ c ∧ c ≤ 'f' then some (c.toNat - 87)
  else if 'A' ≤ c ∧ c ≤ 'F' then some (c.toNat - 55)
  else none

/-- Body of a JSON string, after the opening quote: returns the decoded
characters and the rest of the input after the closing quote.  Matches
the strict scanner of Python: raw control characters are rejected, the eight
short escapes and `\uXXXX` are decoded, and surrogate pairs are combined.
(Python tolerates lone surrogates inside `str`; the Lean `Char` type cannot
represent them, so they are rejected here — no theorem below depends on
that corner.) -/
def parseStringBody : List Char → Except String (List Char × List Char)
  | [] => .error "Unterminated string"
  | c :: rest =>
    if c = '"' then .ok ([], rest)
    else if c = '\\' then
      match rest with
      | [] => .error "Unterminated string"
      | e :: rest2 =>
        if e = '"' then (fun p => ('"' :: p.1, p.2)) <$> parseStringBody rest2
        else if e = '\\' then (fun p => ('\\' :: p.1, p.2)) <$> parseStringBody rest2
        else if e = '/' then (fun p => ('/' :: p.1, p.2)) <$> parseStringBody rest2
        else if e = 'b' then (fun p => ('\x08' :: p.1, p.2)) <$> parseStringBody rest2
        else if e = 'f' then (fun p => ('\x0c' :: p.1, p.2)) <$> parseStringBody rest2
        else if e = 'n' then (fun p => ('\n' :: p.1, p.2)) <$> parseStringBody rest2
        else if e = 'r' then (fun p => ('\r' :: p.1, p.2)) <$> parseStringBody rest2
        else if e = 't' then (fun p => ('\t' :: p.1, p.2)) <$> parseStringBody rest2
        else if e = 'u' then
          match rest2 with
          | h1 :: h2 :: h3 :: h4 :: rest3 =>
            match hexVal h1, hexVal h2, hexVal h3, hexVal h4 with
            | some v1, some v2, some v3, some v4 =>
              let code := ((v1 * 16 + v2) * 16 + v3) * 16 + v4
              if 0xd800 ≤ code ∧ code ≤ 0xdbff then
                match rest3 with
                | '\\' :: 'u' :: g1 :: g2 :: g3 :: g4 :: rest4 =>
                  match hexVal g1, hexVal g2, hexVal g3, hexVal g4 with
                  | some w1, some w2, some w3, some w4 =>
                    let low := ((w1 * 16 + w2) * 16 + w3) * 16 + w4
                    if 0xdc00 ≤ low ∧ low ≤ 0xdfff then
                      let combined := 0x10000 + (code - 0xd800) * 0x400 + (low - 0xdc00)
                      (fun p => (Char.ofNat combined :: p.1, p.2)) <$> parseStringBody rest4
                    else .error "Unpaired high surrogate"
                  | _, _, _, _ => .error "Invalid uXXXX escape"
                | _ => .error "Unpaired high surrogate"
              else if 0xdc00 ≤ code ∧ code ≤ 0xdfff then
                .error "Unpaired low surrogate"
              else
                (fun p => (Char.ofNat code :: p.1, p.2)) <$> parseStringBody rest3
            | _, _, _, _ => .error "Invalid uXXXX escape"
          | _ => .error "Invalid uXXXX escape"
        else .error "Invalid escape"
    else if c.toNat < 0x20 then .error "Invalid control character"
    else (fun p => (c :: p.1, p.2)) <$> parseStringBody rest

/-- A JSON numeric literal, as matched by the Python `NUMBER_RE` regex
(`-?(0|[1-9]\d*)(\.\d+)?([eE][+-]?\d+)?`): returns the matched literal and
the rest of the input.  The fractional and exponent parts are consumed
only when complete, as the regex would. -/
def parseNumber (s : List Char) : Except String (List Char × List Char) :=
  let neg : List Char × List Char :=
    match s with
    | '-' :: rest => (['-'], rest)
    | _ => ([], s)
  match neg.2 with
  | [] => .error "Expecting value"
  | c :: rest =>
    if c = '0' ∨ ('1' ≤ c ∧ c ≤ '9') then
      let intDigits := if c = '0' then [] else rest.takeWhile Char.isDigit
      let afterInt := if c = '0' then rest else rest.dropWhile Char.isDigit
      let fracPart : List Char × List Char :=
        match afterInt with
        | '.' :: r2 =>
          let fd := r2.takeWhile Char.isDigit
          if fd.isEmpty then ([], afterInt)
          else ('.' :: fd, r2.dropWhile Char.isDigit)
        | _ => ([], afterInt)
      let expPart : List Char × List Char :=
        match fracPart.2 with
        | e :: r3 =>
          if e = 'e' ∨ e = 'E' then
            match r3 with
            | sgn :: r4 =>
              if sgn = '+' ∨ sgn = '-' then
                let ed := r4.takeWhile Char.isDigit
                if ed.isEmpty then ([], fracPart.2)
                else (e :: sgn :: ed, r4.dropWhile Char.isDigit)
              else
                let ed := r3.takeWhile Char.isDigit
                if ed.isEmpty then ([], fracPart.2)
                else (e :: ed, r3.dropWhile Char.isDigit)
            | [] => ([], fracPart.2)
          else ([], fracPart.2)
        | [] => ([], fracPart.2)
      .ok (neg.1 ++ c :: intDigits ++ fracPart.1 ++ expPart.1, expPart.2)
    else .error "Expecting value"

/-- Python `dict` update semantics while building a JSON object: a repeated key
keeps its original position but takes the new value, as the Python
assignment `dict[key] = value` does during decoding. -/
def insertMember (m : List (String × Json)) (k : String) (v : Json) :
    List (String × Json) :=
  if m.any (fun p => p.1 = k) then
    m.map (fun p => if p.1 = k then (k, v) else p)
  else m ++ [(k, v)]

/-- Parser mode: a full value, the members of an object after `{`, or the
elements of an array after `[` (with the members/elements decoded so
far). -/
inductive ParseMode where
  | value
  | members (acc : List (String × Json))
  | elements (acc : List Json)

/-- The recursive core of `json.loads`, structural on a fuel argument
(`json_loads` supplies more fuel than any input can consume).  `.value`
decodes one JSON value; `.members`/`.elements` are the object/array loops
of the Python `JSONObject`/`JSONArray` scanners. -/
def parseCore : Nat → ParseMode → List Char → Except String (Json × List Char)
  | 0, _, _ => .error "Maximum recursion depth exceeded"
  | fuel + 1, .value, s =>
    match skipWs s with
    | [] => .error "Expecting value"
    | c :: rest =>
      if c = '\x7b' then
        match skipWs rest with
        | '\x7d' :: rest2 => .ok (.obj [], rest2)
        | _ => parseCore fuel (.members []) rest
      else if c = '[' then
        match skipWs rest with
        | ']' :: rest2 => .ok (.arr [], rest2)
        | _ => parseCore fuel (.elements []) rest
      else if c = '"' then
        match parseStringBody rest with
        | .error e => .error e
        | .ok (cs, r) => .ok (.str (String.mk cs), r)
      else if begins "true".data (c :: rest) then .ok (.bool true, (c :: rest).drop 4)
      else if begins "false".data (c :: rest) then .ok (.bool false, (c :: rest).drop 5)
      else if begins "null".data (c :: rest) then .ok (.null, (c :: rest).drop 4)
      else if begins "NaN".data (c :: rest) then .ok (.num "NaN", (c :: rest).drop 3)
      else if begins "Infinity".data (c :: rest) then
        .ok (.num "Infinity", (c :: rest).drop 8)
      else if begins "-Infinity".data (c :: rest) then
        .ok (.num "-Infinity", (c :: rest).drop 9)
      else
        match parseNumber (c :: rest) with
        | .error e => .error e
        | .ok (lit, r) => .ok (.num (String.mk lit), r)
  | fuel + 1, .members acc, s =>
    match skipWs s with
    | '"' :: rest =>
      match parseStringBody rest with
      | .error e => .error e
      | .ok (key, r1) =>
        match skipWs r1 with
        | ':' :: r2 =>
          match parseCore fuel .value r2 with
          | .error e => .error e
          | .ok (v, r3) =>
            let acc2 := insertMember acc (String.mk key) v
            match skipWs r3 with
            | ',' :: r4 => parseCore fuel (.members acc2) r4
            | '\x7d' :: r4 => .ok (.obj acc2, r4)
            | _ => .error "Expecting comma delimiter"
        | _ => .error "Expecting colon delimiter"
    | _ => .error "Expecting property name enclosed in double quotes"
  | fuel + 1, .elements acc, s =>
    match parseCore fuel .value s with
    | .error e => .error e
    | .ok (v, r1) =>
      match skipWs r1 with
      | ',' :: r2 => parseCore fuel (.elements (acc ++ [v])) r2
      | ']' :: r2 => .ok (.arr (acc ++ [v]), r2)
      | _ => .error "Expecting comma delimiter"

/-- Function `json.loads`: decode one JSON value, allowing surrounding whitespace
and rejecting trailing input ("Extra data"). -/
def json_loads (s : List Char) : Except String Json :=
  match parseCore (s.length + 1) .value s with
  | .error e => .error e
  | .ok (v, rest) => if (skipWs rest).isEmpty then .ok v else .error "Extra data"

/-- The fixed opening fragment of `TOOL_PATTERN`: three backticks, the
token `json`, and a newline. -/
def OPEN_MARK : List Char := "```json\n".data

/-- The fixed closing fragment of `TOOL_PATTERN`: in the source the fence
is closed by a newline and only TWO backticks (`` \n`` ``), not three. -/
def CLOSE_MARK : List Char := "\n``".data

/-- The non-greedy group `(.*?)` followed by the closing fragment, at a
fixed starting position: the capture is the shortest run of
non-newline characters after which `CLOSE_MARK` matches (without `DOTALL`,
`.` does not match a newline, so the capture cannot cross a line). -/
def findClose : List Char → Option (List Char)
  | [] => none
  | c :: rest =>
    if begins CLOSE_MARK (c :: rest) then some []
    else if c = '\n' then none
    else (findClose rest).map (fun l => c :: l)

/-- Search `re.search(TOOL_PATTERN, s)`: try each start position left to right;
at a position where the opening fragment matches, succeed if the
non-greedy group and closing fragment complete the match, otherwise move
one character right.  Returns the captured group of the leftmost match. -/
def findFence : List Char → Option (List Char)
  | [] => none
  | c :: rest =>
    if begins OPEN_MARK (c :: rest) then
      match findClose ((c :: rest).drop OPEN_MARK.length) with
      | some inner => some inner
      | none => findFence rest
    else findFence rest

/-- Turn-level failures, as the Python exceptions that can escape
`process_user_prompt`. -/
inductive Err where
  | external (msg : String)
  | parseError (msg : String)
  | keyError (key : String)
  | typeError (msg : String)
  | indexError
deriving DecidableEq

/-- Function `parse_response` (gemma_client.py:45-48): `re.search` the tool
pattern; on no match fall through (return `None`); on a match,
`json.loads` the captured group — a decode failure escapes as an
exception (`Except.error`). -/
def parse_response (model_response : String) : Except Err (Option Json) :=
  match findFence model_response.data with
  | none => .ok none
  | some inner =>
    match json_loads inner with
    | .ok j => .ok (some j)
    | .error m => .error (.parseError m)

/-- One tool descriptor, as rebuilt in `available_tools`
(gemma_client.py:91-95) from the `list_tools` response of the session. -/
structure ToolDescriptor where
  name : String
  description : String
  inputSchema : Json

/-- The external collaborators of one turn — the MCP session and the
Ollama model — as request/response functions.  `get_prompt` and
`call_tool` return the `.text` fields of the messages/content items of
their responses; `model` is `ollama.chat` returning
`response["message"]["content"]`. -/
structure Env where
  list_tools : Except Err (List ToolDescriptor)
  list_prompts : Except Err (List String)
  get_prompt : String → Option (List (String × Json)) → Except Err (List String)
  call_tool : String → Json → Except Err (List String)
  model : String → Except Err String

/-- Function `model_call` (gemma_client.py:31-39): submit one prompt, return the
generated text. -/
def model_call (env : Env) (model_prompt : String) : Except Err String :=
  env.model model_prompt

/-- The combined prompt of `augmented_model_call` (gemma_client.py:42):
the f-string `"{system_prompt}\n{user_prompt}"` — the template text, one
newline, the user text. -/
def composed_prompt (system_prompt user_prompt : String) : String :=
  system_prompt ++ "\n" ++ user_prompt

/-- Function `augmented_model_call` (gemma_client.py:41-43): compose and submit. -/
def augmented_model_call (env : Env) (system_prompt user_prompt : String) :
    Except Err String :=
  model_call env (composed_prompt system_prompt user_prompt)

/-- Python subscript `j["city"]` on a parsed JSON value: a lookup on a
dict (raising `KeyError` when missing), a `TypeError` on anything else. -/
def jsonSubscript (j : Json) (key : String) : Except Err Json :=
  match j with
  | .obj members =>
    match members.find? (fun p => p.1 = key) with
    | some p => .ok p.2
    | none => .error (.keyError key)
  | _ => .error (.typeError "value is not subscriptable by a string key")

/-- One external call made during a turn, in order. -/
inductive Event where
  | listTools
  | listPrompts
  | getPrompt (name : String) (args : Option (List (String × Json)))
  | modelCall (prompt : String)
  | callTool (name : String) (args : Json)

/-- Outcome of one turn: the returned string or the escaping exception,
together with the ordered trace of external calls that were issued. -/
structure TurnResult where
  result : Except Err String
  trace : List Event

/-- Number of model calls in a trace. -/
def countModelCalls (trace : List Event) : Nat :=
  (trace.filter (fun e => match e with | .modelCall _ => true | _ => false)).length

/-- Number of tool invocations in a trace. -/
def countToolCalls (trace : List Event) : Nat :=
  (trace.filter (fun e => match e with | .callTool _ _ => true | _ => false)).length

/-- Method `MCPClient.process_user_prompt` (gemma_client.py:79-145), one turn:
list tools and prompts (display only), fetch the `weather_prompt`
template, call the model on template+user text, scan the response with
`parse_response`, and branch on Python truthiness of the result.  The
tool branch calls `weather_tool` with the parsed arguments as-is, builds
the follow-up prompt via `get_prompt("weather_response_prompt", {city,
weather})`, and calls the model a second time; either branch returns
`"\n".join(final_text)` where `final_text` holds exactly one string.
`messages[0]`/`content[0]` on an empty list is an `IndexError`. -/
def process_user_prompt (env : Env) (user_prompt : String) : TurnResult :=
  match env.list_tools with
  | .error e => ⟨.error e, [.listTools]⟩
  | .ok _tools =>
    match env.list_prompts with
    | .error e => ⟨.error e, [.listTools, .listPrompts]⟩
    | .ok _prompts =>
      match env.get_prompt "weather_prompt" none with
      | .error e => ⟨.error e,
          [.listTools, .listPrompts, .getPrompt "weather_prompt" none]⟩
      | .ok [] => ⟨.error .indexError,
          [.listTools, .listPrompts, .getPrompt "weather_prompt" none]⟩
      | .ok (system_prompt :: _) =>
        match augmented_model_call env system_prompt user_prompt with
        | .error e => ⟨.error e,
            [.listTools, .listPrompts, .getPrompt "weather_prompt" none,
             .modelCall (composed_prompt system_prompt user_prompt)]⟩
        | .ok model_response =>
          match parse_response model_response with
          | .error e => ⟨.error e,
              [.listTools, .listPrompts, .getPrompt "weather_prompt" none,
               .modelCall (composed_prompt system_prompt user_prompt)]⟩
          | .ok function_call_json =>
            match function_call_json with
            | some j =>
              if j.truthy then
                match env.call_tool "weather_tool" j with
                | .error e => ⟨.error e,
                    [.listTools, .listPrompts, .getPrompt "weather_prompt" none,
                     .modelCall (composed_prompt system_prompt user_prompt),
                     .callTool "weather_tool" j]⟩
                | .ok [] => ⟨.error .indexError,
                    [.listTools, .listPrompts, .getPrompt "weather_prompt" none,
                     .modelCall (composed_prompt system_prompt user_prompt),
                     .callTool "weather_tool" j]⟩
                | .ok (weather_result :: _) =>
                  match jsonSubscript j "city" with
                  | .error e => ⟨.error e,
                      [.listTools, .listPrompts, .getPrompt "weather_prompt" none,
                       .modelCall (composed_prompt system_prompt user_prompt),
                       .callTool "weather_tool" j]⟩
                  | .ok cityVal =>
                    let args := [("city", cityVal), ("weather", Json.str weather_result)]
                    match env.get_prompt "weather_response_prompt" (some args) with
                    | .error e => ⟨.error e,
                        [.listTools, .listPrompts, .getPrompt "weather_prompt" none,
                         .modelCall (composed_prompt system_prompt user_prompt),
                         .callTool "weather_tool" j,
                         .getPrompt "weather_response_prompt" (some args)]⟩
                    | .ok [] => ⟨.error .indexError,
                        [.listTools, .listPrompts, .getPrompt "weather_prompt" none,
                         .modelCall (composed_prompt system_prompt user_prompt),
                         .callTool "weather_tool" j,
                         .getPrompt "weather_response_prompt" (some args)]⟩
                    | .ok (weather_prompt_text :: _) =>
                      match model_call env weather_prompt_text with
                      | .error e => ⟨.error e,
                          [.listTools, .listPrompts, .getPrompt "weather_prompt" none,
                           .modelCall (composed_prompt system_prompt user_prompt),
                           .callTool "weather_tool" j,
                           .getPrompt "weather_response_prompt" (some args),
                           .modelCall weather_prompt_text]⟩
                      | .ok model_response2 =>
                        ⟨.ok (String.intercalate "\n" [model_response2]),
                         [.listTools, .listPrompts, .getPrompt "weather_prompt" none,
                          .modelCall (composed_prompt system_prompt user_prompt),
                          .callTool "weather_tool" j,
                          .getPrompt "weather_response_prompt" (some args),
                          .modelCall weather_prompt_text]⟩
              else
                ⟨.ok (String.intercalate "\n" [model_response]),
                 [.listTools, .listPrompts, .getPrompt "weather_prompt" none,
                  .modelCall (composed_prompt system_prompt user_prompt)]⟩
            | none =>
              ⟨.ok (String.intercalate "\n" [model_response]),
               [.listTools, .listPrompts, .getPrompt "weather_prompt" none,
                .modelCall (composed_prompt system_prompt user_prompt)]⟩

/-- What one loop iteration displays: the answer of the turn, or the
`"Error: ..."` diagnostic printed by the `except` handler. -/
inductive LoopEvent where
  | answer (s : String)
  | errorLine (e : Err)

/-- Constructor `answer` for a returned string, `errorLine` for a caught exception —
the display of the outcome of one turn in the loop body. -/
def displayResult : Except Err String → LoopEvent
  | .ok r => .answer r
  | .error e => .errorLine e

/-- Whitespace as stripped by Python `str.strip()` (the ASCII whitespace
characters; the further Unicode space characters Python also strips do
not occur in any input considered here). -/
def pyWs (c : Char) : Bool :=
  c = ' ' || c = '\t' || c = '\n' || c = '\r' || c = '\x0b' || c = '\x0c'

/-- Python `str.strip()`: drop leading and trailing whitespace. -/
def pyStrip (s : String) : String :=
  String.mk (((s.data.dropWhile pyWs).reverse.dropWhile pyWs).reverse)

/-- Python `str.lower()` on the ASCII letters (the only case mapping the
quit-token comparison can exercise). -/
def pyLower (s : String) : String :=
  String.mk (s.data.map (fun c =>
    if 'A' ≤ c ∧ c ≤ 'Z' then Char.ofNat (c.toNat + 32) else c))

/-- Method `MCPClient.chat_loop` (gemma_client.py:147-164) with stdin modelled
as a list of lines: strip each line, stop on the quit token (`q` after
lowercasing — note the banner advertises `quit` but the comparison is
with `q`), otherwise run the turn inside `try`, displaying either the
answer or the caught error, and continue with the next line. -/
def chat_loop (env : Env) : List String → List LoopEvent
  | [] => []
  | line :: rest =>
    let user_prompt := pyStrip line
    if pyLower user_prompt = "q" then []
    else
      match (process_user_prompt env user_prompt).result with
      | .ok response => .answer response :: chat_loop env rest
      | .error e => .errorLine e :: chat_loop env rest

/-- A concrete session/model environment realising the end-to-end
scenario B: the model answers the composed weather question with a fenced
`{"city": "Paris"}` tool call, the tool returns `Sunny, 20C`, the filled
follow-up template is `T-PARIS`, and the second model call produces the
final sentence. -/
def envB : Env where
  list_tools := .ok [⟨"weather_tool", "Gets the weather for a city", .obj []⟩]
  list_prompts := .ok ["weather_prompt", "weather_response_prompt"]
  get_prompt := fun name _args =>
    if name = "weather_prompt" then .ok ["SYS"]
    else if name = "weather_response_prompt" then .ok ["T-PARIS"]
    else .error (.external "unknown prompt")
  call_tool := fun name _args =>
    if name = "weather_tool" then .ok ["Sunny, 20C"]
    else .error (.external "unknown tool")
  model := fun p =>
    if p = "SYS\nweather in Paris" then .ok "```json\n\x7b\"city\": \"Paris\"\x7d\n```"
    else if p = "T-PARIS" then .ok "It is sunny in Paris."
    else .error (.external "unexpected prompt")

/-- Scenario A: the model answers `4` with no fenced block. -/
def envA : Env where
  list_tools := .ok []
  list_prompts := .ok ["weather_prompt"]
  get_prompt := fun name _args =>
    if name = "weather_prompt" then .ok ["SYS"] else .error (.external "unknown prompt")
  call_tool := fun _ _ => .error (.external "no tool")
  model := fun p => if p = "SYS\nWhat is 2+2?" then .ok "4" else .error (.external "unexpected prompt")

/-- An environment whose model emits a fenced block with invalid JSON. -/
def envBadJson : Env where
  list_tools := .ok []
  list_prompts := .ok ["weather_prompt"]
  get_prompt := fun name _args =>
    if name = "weather_prompt" then .ok ["SYS"] else .error (.external "unknown prompt")
  call_tool := fun _ _ => .error (.external "no tool")
  model := fun _ => .ok "```json\nnot json\n```"

/-- An environment whose model emits a fenced block holding the falsy
JSON object `{}`. -/
def envFalsy : Env where
  list_tools := .ok []
  list_prompts := .ok ["weather_prompt"]
  get_prompt := fun name _args =>
    if name = "weather_prompt" then .ok ["SYS"] else .error (.external "unknown prompt")
  call_tool := fun _ _ => .error (.external "no tool")
  model := fun _ => .ok "```json\n\x7b\x7d\n```"

/-- An environment whose model call always fails. -/
def envModelDown : Env where
  list_tools := .ok []
  list_prompts := .ok ["weather_prompt"]
  get_prompt := fun name _args =>
    if name = "weather_prompt" then .ok ["SYS"] else .error (.external "unknown prompt")
  call_tool := fun _ _ => .error (.external "no tool")
  model := fun _ => .error (.external "model endpoint unreachable")

/-- The backtick character (written via its code point). -/
def BACKTICK : Char := Char.ofNat 96

/-- Number of backtick characters in a character list (used to refute
fence decompositions by counting). -/
def countBt (l : List Char) : Nat :=
  (l.filter (fun c => c = BACKTICK)).length

/-- The well-formed fence of the specification: a block opened by three
backticks, the token `json` and a newline, and closed by three backticks.
Modelled from the words of the specification (not from the source pattern, whose
closing marker has only two backticks), for comparison with the source
behaviour. -/
def specWellFormedFence (s : String) : Prop :=
  ∃ a b c, s.data = a ++ OPEN_MARK ++ b ++ "```".data ++ c

/-- The well-formed closing fence of the specification: a newline and
three backticks. -/
def WELL_CLOSE : List Char := "\n```".data

theorem countBt_append (a b : List Char) :
    countBt (a ++ b) = countBt a + countBt b := by
  simp [countBt, List.filter_append]

theorem begins_iff (p s : List Char) : begins p s = true ↔ ∃ t, s = p ++ t := by
  induction p generalizing s with
  | nil => simp [begins]
  | cons a as ih =>
    cases s with
    | nil => simp [begins]
    | cons b bs =>
      simp only [begins, Bool.and_eq_true, beq_iff_eq, ih, List.cons_append,
        List.cons.injEq]
      constructor
      · rintro ⟨hab, t, ht⟩
        exact ⟨t, hab.symm, ht⟩
      · rintro ⟨t, hab, ht⟩
        exact ⟨hab.symm, t, ht⟩

theorem begins_append (p t : List Char) : begins p (p ++ t) = true :=
  (begins_iff p (p ++ t)).mpr ⟨t, rfl⟩

theorem begins_cons_false (a : Char) (as : List Char) (c : Char) (s : List Char)
    (h : c ≠ a) : begins (a :: as) (c :: s) = false := by
  have hab : (a == c) = false := by
    simp only [beq_eq_false_iff_ne, ne_eq]
    exact fun hn => h hn.symm
  simp [begins, hab]

/-- Soundness of `findClose`: a successful capture is followed, in the
input, by the closing marker; the capture holds no newline. -/
theorem findClose_sound (s inner : List Char) (h : findClose s = some inner) :
    (∃ rest, s = inner ++ CLOSE_MARK ++ rest) ∧ '\n' ∉ inner := by
  induction s generalizing inner with
  | nil => simp [findClose] at h
  | cons c rest ih =>
    rw [findClose] at h
    by_cases hb : begins CLOSE_MARK (c :: rest) = true
    · rw [if_pos hb] at h
      obtain ⟨t, ht⟩ := (begins_iff _ _).mp hb
      injection h with h
      subst h
      exact ⟨⟨t, by simpa using ht⟩, by simp⟩
    · rw [if_neg hb] at h
      by_cases hc : c = '\n'
      · simp [hc] at h
      · rw [if_neg hc] at h
        cases hfc : findClose rest with
        | none => rw [hfc] at h; simp at h
        | some inner0 =>
          rw [hfc] at h
          rw [show Option.map (fun l => c :: l) (some inner0) = some (c :: inner0) from rfl] at h
          injection h with h
          obtain ⟨⟨t, ht⟩, hnl⟩ := ih inner0 hfc
          subst h
          refine ⟨⟨t, by simp [ht]⟩, ?_⟩
          simp only [List.mem_cons, not_or]
          exact ⟨fun hcn => hc hcn.symm, hnl⟩

/-- Completeness of `findClose`: a newline-free segment followed by the
closing marker is captured exactly. -/
theorem findClose_complete (line rest : List Char) (h : '\n' ∉ line) :
    findClose (line ++ CLOSE_MARK ++ rest) = some line := by
  induction line with
  | nil =>
    rw [show ([] : List Char) ++ CLOSE_MARK ++ rest = '\n' :: ("``".data ++ rest) from rfl,
      findClose]
    rw [show ('\n' :: ("``".data ++ rest)) = CLOSE_MARK ++ rest from rfl]
    rw [if_pos (begins_append CLOSE_MARK rest)]
  | cons c cs ih =>
    have hc : c ≠ '\n' := fun hcn => h (hcn ▸ List.mem_cons_self c cs)
    have hcs : '\n' ∉ cs := fun hin => h (List.mem_cons_of_mem c hin)
    have hb : begins CLOSE_MARK (c :: (cs ++ CLOSE_MARK ++ rest)) = false := by
      rw [show CLOSE_MARK = '\n' :: "``".data from rfl]
      exact begins_cons_false _ _ _ _ hc
    rw [show (c :: cs) ++ CLOSE_MARK ++ rest = c :: (cs ++ CLOSE_MARK ++ rest) from rfl,
      findClose, hb]
    simp only [Bool.false_eq_true, if_false, if_neg hc]
    rw [ih hcs]
    rfl

/-- Soundness of `findFence`: a successful search exhibits an occurrence of
the source pattern — opener, single-line capture, two-backtick closer. -/
theorem findFence_sound (s inner : List Char) (h : findFence s = some inner) :
    (∃ a rest, s = a ++ OPEN_MARK ++ inner ++ CLOSE_MARK ++ rest) ∧ '\n' ∉ inner := by
  induction s generalizing inner with
  | nil => simp [findFence] at h
  | cons c rest ih =>
    rw [findFence] at h
    by_cases hb : begins OPEN_MARK (c :: rest) = true
    · rw [if_pos hb] at h
      obtain ⟨t, ht⟩ := (begins_iff _ _).mp hb
      cases hfc : findClose ((c :: rest).drop OPEN_MARK.length) with
      | none =>
        rw [hfc] at h
        obtain ⟨⟨a, r, hd⟩, hnl⟩ := ih inner h
        exact ⟨⟨c :: a, r, by simp [hd]⟩, hnl⟩
      | some inner0 =>
        rw [hfc] at h
        injection h with h
        subst h
        rw [ht, List.drop_left] at hfc
        obtain ⟨⟨r, hr⟩, hnl⟩ := findClose_sound _ _ hfc
        exact ⟨⟨[], r, by simp [ht, hr]⟩, hnl⟩
    · rw [if_neg hb] at h
      obtain ⟨⟨a, r, hd⟩, hnl⟩ := ih inner h
      exact ⟨⟨c :: a, r, by simp [hd]⟩, hnl⟩

/-- Behaviour of `findFence` when the input starts with the opener and a completed
match: the capture is returned. -/
theorem findFence_of_begins (s inner : List Char)
    (hb : begins OPEN_MARK s = true)
    (hc : findClose (s.drop OPEN_MARK.length) = some inner) :
    findFence s = some inner := by
  cases s with
  | nil =>
    obtain ⟨t, ht⟩ := (begins_iff _ _).mp hb
    exact absurd ht (by simp [show OPEN_MARK = "```json\n".data from rfl])
  | cons c rest =>
    rw [findFence, if_pos hb, hc]

/-- Completeness of `findFence`: with no backtick before the opener and a
newline-free capture, the match is found and the capture returned. -/
theorem findFence_complete (pre line rest : List Char)
    (hpre : BACKTICK ∉ pre) (hline : '\n' ∉ line) :
    findFence (pre ++ OPEN_MARK ++ line ++ CLOSE_MARK ++ rest) = some line := by
  induction pre with
  | nil =>
    apply findFence_of_begins
    · simpa [List.append_assoc] using
        begins_append OPEN_MARK (line ++ (CLOSE_MARK ++ rest))
    · rw [List.nil_append, List.append_assoc, List.append_assoc, List.drop_left,
        ← List.append_assoc]
      exact findClose_complete line rest hline
  | cons c cs ih =>
    have hc : c ≠ BACKTICK := fun hcb => hpre (hcb ▸ List.mem_cons_self c cs)
    have hcs : BACKTICK ∉ cs := fun hin => hpre (List.mem_cons_of_mem c hin)
    have hb : begins OPEN_MARK (c :: (cs ++ OPEN_MARK ++ line ++ CLOSE_MARK ++ rest)) = false := by
      rw [show OPEN_MARK = BACKTICK :: "``json\n".data from rfl]
      exact begins_cons_false _ _ _ _ hc
    rw [show (c :: cs) ++ OPEN_MARK ++ line ++ CLOSE_MARK ++ rest
        = c :: (cs ++ OPEN_MARK ++ line ++ CLOSE_MARK ++ rest) from rfl,
      findFence]
    rw [show c :: (cs ++ OPEN_MARK ++ line ++ CLOSE_MARK ++ rest)
        = c :: (cs ++ (OPEN_MARK ++ (line ++ (CLOSE_MARK ++ rest)))) by simp [List.append_assoc]]
    rw [show begins OPEN_MARK (c :: (cs ++ (OPEN_MARK ++ (line ++ (CLOSE_MARK ++ rest))))) = false
        from by simpa [List.append_assoc] using hb]
    simp only [Bool.false_eq_true, if_false]
    simpa [List.append_assoc] using ih hcs

/-- C1 (amended): for every model output that contains no occurrence of
the source pattern — the opener `` ```json `` + newline, a single-line
(newline-free) inner text, and the closing marker `` \n`` `` (two
backticks, as written in `TOOL_PATTERN`) — `parse_response` returns
`None`, including outputs with unrelated backtick text or malformed
fences. -/
theorem c1_extract_absent (s : String)
    (h : ¬ ∃ a line rest, s.data = a ++ OPEN_MARK ++ line ++ CLOSE_MARK ++ rest ∧ '\n' ∉ line) :
    parse_response s = .ok none := by
  cases hf : findFence s.data with
  | none => simp [parse_response, hf]
  | some inner =>
    obtain ⟨⟨a, r, hd⟩, hnl⟩ := findFence_sound _ _ hf
    exact absurd ⟨a, inner, r, hd, hnl⟩ h

/-- Witness for C1: a plain answer with no backticks at all is reported
as `None` (the decomposition is refuted by counting backticks). -/
theorem c1_extract_absent_witness :
    parse_response "The answer is 4." = .ok none := by
  apply c1_extract_absent
  rintro ⟨a, line, rest, hd, -⟩
  have hcount := congrArg countBt hd
  rw [countBt_append, countBt_append, countBt_append, countBt_append,
    show countBt ("The answer is 4." : String).data = 0 from rfl,
    show countBt OPEN_MARK = 3 from rfl,
    show countBt CLOSE_MARK = 2 from rfl] at hcount
  omega

/-- Counterexample to C1 as stated: this output contains NO well-formed
fenced JSON block (it has only five backticks in total, while an opener
plus a three-backtick closer needs six), yet `parse_response` does not
return `None` — the source pattern accepts the two-backtick closer. -/
theorem c1_counterexample :
    ¬ specWellFormedFence "```json\n\x7b\"city\": \"Berlin\"\x7d\n``" ∧
    parse_response "```json\n\x7b\"city\": \"Berlin\"\x7d\n``" ≠ .ok none := by
  constructor
  · rintro ⟨a, b, c, hd⟩
    have hcount := congrArg countBt hd
    rw [countBt_append, countBt_append, countBt_append, countBt_append,
      show countBt ("```json\n\x7b\"city\": \"Berlin\"\x7d\n``" : String).data = 5 from rfl,
      show countBt OPEN_MARK = 3 from rfl,
      show countBt "```".data = 3 from rfl] at hcount
    omega
  · intro h
    rw [show parse_response "```json\n\x7b\"city\": \"Berlin\"\x7d\n``"
        = .ok (some (.obj [("city", .str "Berlin")])) from rfl] at h
    exact Option.noConfusion (Except.ok.inj h)

/-- C2 (amended): for a model output of the form
`pre ++ "```json\n" ++ line ++ "\n```" ++ post` where `pre` holds no
backtick and `line` is a single line whose text is valid JSON,
`parse_response` returns exactly the JSON-parse of `line` — no added
keys, no removed keys, no coercion beyond `json.loads` itself.  (The
restriction to a single-line inner text is forced by the counterexample
below: the dot in the pattern does not match a newline.) -/
theorem c2_extract_valid_json (pre line post : List Char) (v : Json)
    (hpre : BACKTICK ∉ pre) (hline : '\n' ∉ line)
    (hjson : json_loads line = .ok v) :
    parse_response (String.mk (pre ++ OPEN_MARK ++ line ++ WELL_CLOSE ++ post)) =
      .ok (some v) := by
  have key : pre ++ OPEN_MARK ++ line ++ WELL_CLOSE ++ post
      = pre ++ OPEN_MARK ++ line ++ CLOSE_MARK ++ (BACKTICK :: post) := by
    simp only [List.append_assoc]
    rw [show WELL_CLOSE ++ post = CLOSE_MARK ++ (BACKTICK :: post) from rfl]
  have hfence := findFence_complete pre line (BACKTICK :: post) hpre hline
  rw [← key] at hfence
  rw [parse_response,
    show (String.mk (pre ++ OPEN_MARK ++ line ++ WELL_CLOSE ++ post)).data
      = pre ++ OPEN_MARK ++ line ++ WELL_CLOSE ++ post from rfl,
    hfence]
  simp [hjson]

/-- Witness for C2: a fenced single-line object between prose fragments
is extracted verbatim as the parsed object. -/
theorem c2_extract_valid_json_witness :
    parse_response (String.mk ("Sure! ".data ++ OPEN_MARK
        ++ "\x7b\"city\": \"Paris\", \"units\": 2\x7d".data ++ WELL_CLOSE ++ " done".data)) =
      .ok (some (.obj [("city", .str "Paris"), ("units", .num "2")])) :=
  c2_extract_valid_json "Sure! ".data "\x7b\"city\": \"Paris\", \"units\": 2\x7d".data
    " done".data (.obj [("city", .str "Paris"), ("units", .num "2")])
    (by decide) (by decide) rfl

/-- Counterexample to C2 as stated: a well-formed fenced block whose
inner text is a syntactically valid JSON object spread over several
lines.  `parse_response` returns `None` for it — the non-`DOTALL` `.` in
the pattern cannot cross the newlines, so no invocation is produced. -/
theorem c2_counterexample :
    ("```json\n\x7b\n\"city\": \"Paris\"\n\x7d\n```" : String).data
      = OPEN_MARK ++ "\x7b\n\"city\": \"Paris\"\n\x7d\n".data ++ "```".data ∧
    json_loads "\x7b\n\"city\": \"Paris\"\n\x7d\n".data = .ok (.obj [("city", .str "Paris")]) ∧
    parse_response "```json\n\x7b\n\"city\": \"Paris\"\n\x7d\n```" = .ok none :=
  ⟨rfl, rfl, rfl⟩

/-- C8: the prompt construction of `augmented_model_call` is exactly the
template text, one newline, then the user text — no truncation, no
substitution — and is pure: the same pair always composes to the same
string. -/
theorem c8_composed_prompt (t u : String) :
    composed_prompt t u = t ++ "\n" ++ u ∧
    (composed_prompt t u).length = t.length + 1 + u.length ∧
    composed_prompt t u = composed_prompt t u := by
  refine ⟨rfl, ?_, rfl⟩
  simp only [composed_prompt, String.length_append]
  rfl

/-- C3: when the session and first model call succeed but the fenced
inner text of the fenced block is not valid JSON, the decode error escapes
`parse_response` and aborts the turn: the result of the turn is that error —
no final answer string — and no call follows the first model call. -/
theorem c3_parse_error_propagates (env : Env) (u : String)
    (ts : List ToolDescriptor) (ps : List String) (sys : String) (sysR : List String)
    (r1 : String) (e : Err)
    (h1 : env.list_tools = .ok ts) (h2 : env.list_prompts = .ok ps)
    (h3 : env.get_prompt "weather_prompt" none = .ok (sys :: sysR))
    (h4 : env.model (composed_prompt sys u) = .ok r1)
    (h5 : parse_response r1 = .error e) :
    (process_user_prompt env u).result = .error e ∧
    (process_user_prompt env u).trace =
      [.listTools, .listPrompts, .getPrompt "weather_prompt" none,
       .modelCall (composed_prompt sys u)] := by
  simp only [process_user_prompt, h1, h2, h3, augmented_model_call, model_call, h4, h5]
  refine ⟨?_, ?_⟩ <;> trivial

/-- Witness for C3: with a model that answers `not json` inside a fence,
the turn fails with the decode error and makes no further calls. -/
theorem c3_parse_error_propagates_witness :
    (process_user_prompt envBadJson "weather in Paris").result
      = .error (.parseError "Expecting value") ∧
    (process_user_prompt envBadJson "weather in Paris").trace =
      [.listTools, .listPrompts, .getPrompt "weather_prompt" none,
       .modelCall (composed_prompt "SYS" "weather in Paris")] :=
  c3_parse_error_propagates envBadJson "weather in Paris" [] ["weather_prompt"]
    "SYS" [] "```json\nnot json\n```" (.parseError "Expecting value")
    rfl rfl rfl rfl rfl

/-- C4 (amended): when extraction yields an invocation whose parsed value
is TRUTHY, the orchestrator invokes the hard-coded `weather_tool` with
exactly the extracted arguments, then retrieves
`weather_response_prompt` with `{city: arguments["city"], weather:
result-text}`, then calls the model a second time on the retrieved text;
the model is called exactly twice and the second response, verbatim, is
the final answer.  (The truthiness condition is forced by the
counterexample below: a falsy parsed value such as `{}` skips the tool
branch.) -/
theorem c4_tool_branch (env : Env) (u : String)
    (ts : List ToolDescriptor) (ps : List String) (sys : String) (sysR : List String)
    (r1 : String) (j : Json) (w : String) (ws : List String) (cv : Json)
    (t : String) (tR : List String) (r2 : String)
    (h1 : env.list_tools = .ok ts) (h2 : env.list_prompts = .ok ps)
    (h3 : env.get_prompt "weather_prompt" none = .ok (sys :: sysR))
    (h4 : env.model (composed_prompt sys u) = .ok r1)
    (h5 : parse_response r1 = .ok (some j))
    (h6 : j.truthy = true)
    (h7 : env.call_tool "weather_tool" j = .ok (w :: ws))
    (h8 : jsonSubscript j "city" = .ok cv)
    (h9 : env.get_prompt "weather_response_prompt"
        (some [("city", cv), ("weather", .str w)]) = .ok (t :: tR))
    (h10 : env.model t = .ok r2) :
    (process_user_prompt env u).result = .ok r2 ∧
    (process_user_prompt env u).trace =
      [.listTools, .listPrompts, .getPrompt "weather_prompt" none,
       .modelCall (composed_prompt sys u),
       .callTool "weather_tool" j,
       .getPrompt "weather_response_prompt" (some [("city", cv), ("weather", .str w)]),
       .modelCall t] ∧
    countModelCalls (process_user_prompt env u).trace = 2 ∧
    countToolCalls (process_user_prompt env u).trace = 1 := by
  simp only [process_user_prompt, h1, h2, h3, augmented_model_call, model_call, h4, h5,
    h6, if_true, h7, h8, h9, h10]
  refine ⟨?_, ?_, ?_, ?_⟩ <;> trivial

/-- Witness for C4: scenario B of the specification — `{"city": "Paris"}` is
extracted, `weather_tool` invoked with it, the follow-up template
`T-PARIS` retrieved and sent to the model, whose answer is returned. -/
theorem c4_tool_branch_witness :
    (process_user_prompt envB "weather in Paris").result = .ok "It is sunny in Paris." ∧
    (process_user_prompt envB "weather in Paris").trace =
      [.listTools, .listPrompts, .getPrompt "weather_prompt" none,
       .modelCall (composed_prompt "SYS" "weather in Paris"),
       .callTool "weather_tool" (.obj [("city", .str "Paris")]),
       .getPrompt "weather_response_prompt"
         (some [("city", .str "Paris"), ("weather", .str "Sunny, 20C")]),
       .modelCall "T-PARIS"] ∧
    countModelCalls (process_user_prompt envB "weather in Paris").trace = 2 ∧
    countToolCalls (process_user_prompt envB "weather in Paris").trace = 1 :=
  c4_tool_branch envB "weather in Paris"
    [⟨"weather_tool", "Gets the weather for a city", .obj []⟩]
    ["weather_prompt", "weather_response_prompt"] "SYS" []
    "```json\n\x7b\"city\": \"Paris\"\x7d\n```" (.obj [("city", .str "Paris")])
    "Sunny, 20C" [] (.str "Paris") "T-PARIS" [] "It is sunny in Paris."
    rfl rfl rfl rfl rfl rfl rfl rfl rfl rfl

/-- Counterexample to C4 as stated: the first model response carries a
fenced `{}`, so extraction yields an invocation (with an empty arguments
mapping) — yet no tool is invoked, the model is called only once, and
the raw first response is returned: the orchestrator branches on Python
truthiness, not on presence. -/
theorem c4_counterexample :
    parse_response "```json\n\x7b\x7d\n```" = .ok (some (.obj [])) ∧
    (process_user_prompt envFalsy "weather in Paris").result = .ok "```json\n\x7b\x7d\n```" ∧
    countToolCalls (process_user_prompt envFalsy "weather in Paris").trace = 0 ∧
    countModelCalls (process_user_prompt envFalsy "weather in Paris").trace = 1 :=
  ⟨rfl, rfl, rfl, rfl⟩

/-- C5: when extraction yields absent (`None`), the first model response
is, verbatim, the final answer of the turn; the model is called exactly once
and no tool call or further prompt retrieval happens. -/
theorem c5_direct_branch (env : Env) (u : String)
    (ts : List ToolDescriptor) (ps : List String) (sys : String) (sysR : List String)
    (r1 : String)
    (h1 : env.list_tools = .ok ts) (h2 : env.list_prompts = .ok ps)
    (h3 : env.get_prompt "weather_prompt" none = .ok (sys :: sysR))
    (h4 : env.model (composed_prompt sys u) = .ok r1)
    (h5 : parse_response r1 = .ok none) :
    (process_user_prompt env u).result = .ok r1 ∧
    (process_user_prompt env u).trace =
      [.listTools, .listPrompts, .getPrompt "weather_prompt" none,
       .modelCall (composed_prompt sys u)] ∧
    countModelCalls (process_user_prompt env u).trace = 1 ∧
    countToolCalls (process_user_prompt env u).trace = 0 := by
  simp only [process_user_prompt, h1, h2, h3, augmented_model_call, model_call, h4, h5]
  refine ⟨?_, ?_, ?_, ?_⟩ <;> trivial

/-- Witness for C5: scenario A of the specification — the model answers `4` with
no fence, and `4` is the final answer after exactly one model call. -/
theorem c5_direct_branch_witness :
    (process_user_prompt envA "What is 2+2?").result = .ok "4" ∧
    (process_user_prompt envA "What is 2+2?").trace =
      [.listTools, .listPrompts, .getPrompt "weather_prompt" none,
       .modelCall (composed_prompt "SYS" "What is 2+2?")] ∧
    countModelCalls (process_user_prompt envA "What is 2+2?").trace = 1 ∧
    countToolCalls (process_user_prompt envA "What is 2+2?").trace = 0 :=
  c5_direct_branch envA "What is 2+2?" [] ["weather_prompt"] "SYS" [] "4"
    rfl rfl rfl rfl rfl

/-- Every turn, whatever the environment does, invokes the tool at most
once (there is a single `call_tool` site, reached at most once). -/
theorem turn_tool_calls_le_one (env : Env) (u : String) :
    countToolCalls (process_user_prompt env u).trace ≤ 1 := by
  unfold process_user_prompt
  repeat' split
  all_goals try simp [countToolCalls, List.filter]
  all_goals try split
  all_goals try simp [countToolCalls, List.filter]
  all_goals try split
  all_goals simp [countToolCalls, List.filter]

/-- C6: a turn that completes without error returns exactly one final
answer string, and at most one tool invocation is executed, whichever
branch was taken. -/
theorem c6_one_answer_at_most_one_tool (env : Env) (u : String)
    (h : (process_user_prompt env u).result.isOk = true) :
    (∃! s, (process_user_prompt env u).result = .ok s) ∧
    countToolCalls (process_user_prompt env u).trace ≤ 1 := by
  constructor
  · cases hres : (process_user_prompt env u).result with
    | error e =>
      rw [hres] at h
      exact Bool.noConfusion h
    | ok s =>
      exact ⟨s, rfl, fun y hy => (Except.ok.inj hy).symm⟩
  · exact turn_tool_calls_le_one env u

/-- Witness for C6, on the direct-branch environment. -/
theorem c6_one_answer_at_most_one_tool_witness :
    (∃! s, (process_user_prompt envA "What is 2+2?").result = .ok s) ∧
    countToolCalls (process_user_prompt envA "What is 2+2?").trace ≤ 1 :=
  c6_one_answer_at_most_one_tool envA "What is 2+2?" rfl

/-- C7: an error escaping a turn is caught by the loop body, displayed
as a diagnostic line instead of an answer, and the loop goes on to
process the remaining inputs — it never terminates because of one failed
turn. -/
theorem c7_loop_catches_and_continues (env : Env) (x : String)
    (rest : List String) (e : Err)
    (hq : pyLower (pyStrip x) ≠ "q")
    (he : (process_user_prompt env (pyStrip x)).result = .error e) :
    chat_loop env (x :: rest) = .errorLine e :: chat_loop env rest := by
  simp [chat_loop, hq, he]

/-- Witness for C7: with the model endpoint down, the failed turn shows
an error line and the next input is still processed (and fails the same
way). -/
theorem c7_loop_catches_and_continues_witness :
    chat_loop envModelDown ["hi", "What is 2+2?"]
      = .errorLine (.external "model endpoint unreachable")
        :: chat_loop envModelDown ["What is 2+2?"] :=
  c7_loop_catches_and_continues envModelDown "hi" ["What is 2+2?"]
    (.external "model endpoint unreachable") (by decide) rfl

/-- C9: the loop consumes one input line at a time; the quit token (the
stripped, lowercased line equal to `q`) ends the loop without processing
a turn, and every other (in particular every non-empty) line is
forwarded, stripped, to the orchestrator, whose outcome is displayed
before the loop continues with the rest. -/
theorem c9_quit_and_forward (env : Env) (x : String) (rest : List String) :
    (pyLower (pyStrip x) = "q" → chat_loop env (x :: rest) = []) ∧
    (pyLower (pyStrip x) ≠ "q" → pyStrip x ≠ "" →
      chat_loop env (x :: rest)
        = displayResult (process_user_prompt env (pyStrip x)).result
            :: chat_loop env rest) := by
  constructor
  · intro hq
    simp [chat_loop, hq]
  · intro hq _hne
    simp only [chat_loop, if_neg hq]
    cases hres : (process_user_prompt env (pyStrip x)).result with
    | ok r => simp [displayResult, hres]
    | error e => simp [displayResult, hres]

/-- Witness for C9: ` Q ` quits immediately; a real question is
forwarded and its answer displayed. -/
theorem c9_quit_and_forward_witness :
    chat_loop envA [" Q ", "What is 2+2?"] = [] ∧
    chat_loop envA ["What is 2+2?"]
      = displayResult (process_user_prompt envA "What is 2+2?").result
          :: chat_loop envA [] :=
  ⟨(c9_quit_and_forward envA " Q " ["What is 2+2?"]).1 rfl,
   (c9_quit_and_forward envA "What is 2+2?" []).2 (by decide) (by decide)⟩

/-- C10: when the fenced block parses to a FALSY JSON value — `{}`,
`null`, `false`, `0`, `""` (or `[]`) — the turn takes the direct branch:
no tool invocation, no follow-up prompt, and the raw first model
response, fence included, is the final answer. -/
theorem c10_falsy_direct_branch (env : Env) (u : String)
    (ts : List ToolDescriptor) (ps : List String) (sys : String) (sysR : List String)
    (r1 : String) (j : Json)
    (h1 : env.list_tools = .ok ts) (h2 : env.list_prompts = .ok ps)
    (h3 : env.get_prompt "weather_prompt" none = .ok (sys :: sysR))
    (h4 : env.model (composed_prompt sys u) = .ok r1)
    (h5 : parse_response r1 = .ok (some j))
    (h6 : j.truthy = false) :
    (process_user_prompt env u).result = .ok r1 ∧
    (process_user_prompt env u).trace =
      [.listTools, .listPrompts, .getPrompt "weather_prompt" none,
       .modelCall (composed_prompt sys u)] ∧
    countToolCalls (process_user_prompt env u).trace = 0 := by
  simp only [process_user_prompt, h1, h2, h3, augmented_model_call, model_call, h4, h5,
    h6, Bool.false_eq_true, if_false]
  refine ⟨?_, ?_, ?_⟩ <;> trivial

/-- Witness for C10: a fenced `{}` is parsed, found falsy, and the raw
fenced response comes back unchanged with no tool call. -/
theorem c10_falsy_direct_branch_witness :
    (process_user_prompt envFalsy "weather in Paris").result = .ok "```json\n\x7b\x7d\n```" ∧
    (process_user_prompt envFalsy "weather in Paris").trace =
      [.listTools, .listPrompts, .getPrompt "weather_prompt" none,
       .modelCall (composed_prompt "SYS" "weather in Paris")] ∧
    countToolCalls (process_user_prompt envFalsy "weather in Paris").trace = 0 :=
  c10_falsy_direct_branch envFalsy "weather in Paris" [] ["weather_prompt"] "SYS" []
    "```json\n\x7b\x7d\n```" (.obj []) rfl rfl rfl rfl rfl rfl

